import Mathlib

/-!
Verification development for the MedTech image-processing backend
(src/backend/app.py).

The repository's own functions — increase_contrast, apply_gaussian_blur,
read_image_file, encode_image and the POST /process handler process_image —
are embedded one-to-one below under their source names.  The third-party
primitives they call (PIL Image.open / convert, numpy array conversion,
cv2 color conversion, split/merge, CLAHE, GaussianBlur, imencode) are not
part of the repository; they are modelled here as executable Lean functions
that keep the structure the embedded code relies on (shapes, channel
layout, failure conditions), with each model's doc comment stating what is
approximated.  Byte strings are modelled as lists of naturals.
-/

/-- A pixel: three unsigned 8-bit samples.  The channel order depends on
where the pixel lives in the pipeline: BGR between decode and encode
(OpenCV convention), Lab inside the contrast filter. -/
abbrev Pix := Nat × Nat × Nat

/-- In-memory image buffer modelling a numpy array of shape (height, width, 3):
a list of rows, each row a list of pixels. -/
structure Img where
  rows : List (List Pix)
deriving DecidableEq

/-- Height of the raster (numpy shape component 0). -/
def Img.height (img : Img) : Nat := img.rows.length

/-- Width of the raster (numpy shape component 1). -/
def Img.width (img : Img) : Nat := (img.rows.headD []).length

/-- Pixel lookup, zero pixel outside the raster. -/
def Img.px (img : Img) (y x : Nat) : Pix := (img.rows.getD y []).getD x (0, 0, 0)

/-- Build an h × w raster from a coordinate function. -/
def Img.ofFn (h w : Nat) (f : Nat → Nat → Pix) : Img :=
  ⟨(List.range h).map fun y => (List.range w).map fun x => f y x⟩

/-- Pointwise per-pixel transformation of a raster. -/
def Img.map (f : Pix → Pix) (img : Img) : Img :=
  ⟨img.rows.map fun row => row.map f⟩

/-- A single-channel plane (one numpy channel), as produced by cv2.split. -/
abbrev Mat := List (List Nat)

/-- Build an h × w plane from a coordinate function. -/
def Mat.ofFn (h w : Nat) (f : Nat → Nat → Nat) : Mat :=
  (List.range h).map fun y => (List.range w).map fun x => f y x

/-- Sample lookup in a plane, zero outside. -/
def Mat.px (m : Mat) (y x : Nat) : Nat := (m.getD y []).getD x 0

/-- Clamp an integer into the byte range, as the 8-bit cv2 kernels saturate. -/
def clampByte (i : Int) : Nat := (max 0 (min 255 i)).toNat

/-- Models the pointwise cv2.cvtColor COLOR_BGR2LAB conversion on 8-bit data.
cv2 computes it per pixel through fixed-point tables that are not part of the
repository; the model keeps the structure the embedded filter relies on:
a pointwise map producing a luminance channel (Rec. 601-style weighted mean
of the BGR samples) and two chrominance offset channels, each sample staying
in the byte range. -/
def labOfBgr (p : Pix) : Pix :=
  let b := p.1
  let g := p.2.1
  let r := p.2.2
  let l := min 255 ((299 * r + 587 * g + 114 * b) / 1000)
  let a := clampByte (128 + ((r : Int) - (g : Int)) / 2)
  let bb := clampByte (128 + ((g : Int) - (b : Int)) / 2)
  (l, a, bb)

/-- Models the pointwise cv2.cvtColor COLOR_LAB2BGR conversion (approximate
inverse of labOfBgr; pointwise and byte-range preserving, which is all the
theorems rely on). -/
def bgrOfLab (p : Pix) : Pix :=
  let l := p.1
  let a := p.2.1
  let bb := p.2.2
  let r := clampByte ((l : Int) + ((a : Int) - 128))
  let g := clampByte (l : Int)
  let b := clampByte ((l : Int) - ((bb : Int) - 128))
  (b, g, r)

/-- Models cv2.cvtColor COLOR_BGR2LAB on a whole raster. -/
def cvtColorBGR2LAB (img : Img) : Img := Img.map labOfBgr img

/-- Models cv2.cvtColor COLOR_LAB2BGR on a whole raster. -/
def cvtColorLAB2BGR (img : Img) : Img := Img.map bgrOfLab img

/-- Models cv2.cvtColor COLOR_RGB2BGR: pointwise channel swap. -/
def cvtColorRGB2BGR (img : Img) : Img :=
  Img.map (fun p => (p.2.2, p.2.1, p.1)) img

/-- Models cv2.split, first channel. -/
def splitCh1 (img : Img) : Mat := img.rows.map fun row => row.map fun p => p.1

/-- Models cv2.split, second channel. -/
def splitCh2 (img : Img) : Mat := img.rows.map fun row => row.map fun p => p.2.1

/-- Models cv2.split, third channel. -/
def splitCh3 (img : Img) : Mat := img.rows.map fun row => row.map fun p => p.2.2

/-- Models cv2.merge of three equal-sized planes back into one raster,
read at the first plane's shape (cv2.merge requires equal sizes). -/
def mergeCh (m1 m2 m3 : Mat) : Img :=
  Img.ofFn m1.length (m1.headD []).length fun y x =>
    (Mat.px m1 y x, Mat.px m2 y x, Mat.px m3 y x)

/-- Models the CLAHE operator created by cv2.createCLAHE(clipLimit 3.0,
tileGridSize 8 × 8) and applied to one 8-bit channel: the raster is tiled
into an 8 × 8 grid, each tile gets a histogram clipped at
max 1 (3 · tileArea / 256) with the clipped excess redistributed uniformly,
and each sample is replaced by its tile's equalization mapping (the scaled
cumulative histogram).  cv2 additionally blends the mappings of neighbouring
tiles bilinearly, which the model omits; the theorems rely only on the
operator being a per-pixel, shape-preserving lookup. -/
def claheApply (m : Mat) : Mat :=
  let h := m.length
  let w := (m.headD []).length
  let th := (h + 7) / 8
  let tw := (w + 7) / 8
  Mat.ofFn h w fun y x =>
    let y0 := y / th * th
    let x0 := x / tw * tw
    let tile := ((List.range (min th (h - y0))).map fun dy =>
      (List.range (min tw (w - x0))).map fun dx =>
        Mat.px m (y0 + dy) (x0 + dx)).flatten
    let area := tile.length
    let clip := max 1 (3 * area / 256)
    let clipped := fun v => min (tile.count v) clip
    let excess := ((List.range 256).map fun v => tile.count v - clipped v).sum
    let v := Mat.px m y x
    let cdf := ((List.range (v + 1)).map fun u => clipped u + excess / 256).sum
    min 255 ((cdf * 255 + area / 2) / area)

/-- Shallow embedding of increase_contrast (src/backend/app.py, lines 41-69):
convert BGR to Lab, split, CLAHE on the luminance channel only, merge the
enhanced luminance with the untouched chrominance planes, convert back. -/
def increase_contrast (img : Img) : Img :=
  let lab := cvtColorBGR2LAB img
  let l := splitCh1 lab
  let a := splitCh2 lab
  let b := splitCh3 lab
  let l_enhanced := claheApply l
  let enhanced_lab := mergeCh l_enhanced a b
  cvtColorLAB2BGR enhanced_lab

/-- OpenCV BORDER_REFLECT_101 index reflection (the cv2.GaussianBlur default):
closed form of borderInterpolate for a raster extent n. -/
def reflect101 (n : Nat) (i : Int) : Nat :=
  if n ≤ 1 then 0
  else
    let p : Int := 2 * (n : Int) - 2
    let j := ((i % p) + p) % p
    if j < (n : Int) then j.toNat else (p - j).toNat

/-- One-dimensional taps of the 15-tap Gaussian kernel: a fixed-point
(scale 10000) approximation of the floating-point kernel cv2 derives for
ksize 15 and sigma 0 (hence sigma 2.6).  The theorems rely only on the
convolution's geometry, never on the weights. -/
def gaussTaps : List Nat :=
  [266, 699, 1574, 3062, 5139, 7439, 9287, 10000,
   9287, 7439, 5139, 3062, 1574, 699, 266]

/-- Tap lookup. -/
def gaussTap (i : Nat) : Nat := gaussTaps.getD i 0

/-- Sum of the taps (normalization denominator of the fixed-point kernel). -/
def gaussTapSum : Nat := gaussTaps.sum

/-- Componentwise sum of weighted pixels, the convolution accumulator. -/
def addT (p q : Pix) : Pix := (p.1 + q.1, p.2.1 + q.2.1, p.2.2 + q.2.2)

/-- Shallow embedding of apply_gaussian_blur (src/backend/app.py, lines
72-90): models cv2.GaussianBlur(img, (15, 15), 0) — a 15 × 15 separable
convolution with BORDER_REFLECT_101 border handling and round-to-nearest
normalization, output shape equal to input shape. -/
def apply_gaussian_blur (img : Img) : Img :=
  let h := img.height
  let w := img.width
  Img.ofFn h w fun y x =>
    let acc := ((List.range 15).map fun dy =>
      ((List.range 15).map fun dx =>
        let wgt := gaussTap dy * gaussTap dx
        let q := img.px (reflect101 h ((y : Int) + (dy : Int) - 7))
                        (reflect101 w ((x : Int) + (dx : Int) - 7))
        (wgt * q.1, wgt * q.2.1, wgt * q.2.2)).foldl addT (0, 0, 0)).foldl addT (0, 0, 0)
    let s := gaussTapSum * gaussTapSum
    ((acc.1 + s / 2) / s, (acc.2.1 + s / 2) / s, (acc.2.2 + s / 2) / s)

/-- PIL source-image modes the decoder model distinguishes. -/
inductive PILMode where
  | RGB
  | L
  | P
  | RGBA
deriving DecidableEq

/-- Samples per pixel of each source mode. -/
def PILMode.channels : PILMode → Nat
  | .RGB => 3
  | .L => 1
  | .P => 1
  | .RGBA => 4

/-- A decoded PIL image: source mode, dimensions and the raw sample stream. -/
structure RawImage where
  mode : PILMode
  h : Nat
  w : Nat
  payload : List Nat
deriving DecidableEq

/-- Container mode tag of the model container format. -/
def modeOfTag (t : Nat) : Option PILMode :=
  if t = 0 then some .RGB
  else if t = 1 then some .L
  else if t = 2 then some .P
  else if t = 3 then some .RGBA
  else none

/-- Models PIL Image.open(BytesIO(file_bytes)).  PIL's decoders are not part
of the repository; the model container is t :: m :: h :: w :: payload with
t the container signature byte (137 as in the PNG signature, 255 as in the
JPEG SOI marker), m the source-mode tag, and at least h · w · channels
samples of payload.  Anything else — zero-byte input, unknown container
signature, bad mode tag, truncated payload — fails to parse, as PIL raises
for bytes that are not a parseable raster image. -/
def pilOpen (file_bytes : List Nat) : Option RawImage :=
  match file_bytes with
  | t :: m :: h :: w :: payload =>
    if t = 137 ∨ t = 255 then
      match modeOfTag m with
      | some mode =>
        if h * w * mode.channels ≤ payload.length then some ⟨mode, h, w, payload⟩
        else none
      | none => none
    else none
  | _ => none

/-- Sample ch of pixel i in the raw stream, reduced to the byte range. -/
def RawImage.sample (img : RawImage) (i ch : Nat) : Nat :=
  img.payload.getD (i * img.mode.channels + ch) 0 % 256

/-- Models PIL image.convert(RGB): grayscale replicates the single sample,
palette lookup is modelled with the identity grey palette, RGBA drops the
alpha sample; every source mode is normalized to 3-channel RGB with the
dimensions unchanged. -/
def RawImage.convertRGB (img : RawImage) : RawImage :=
  { mode := .RGB, h := img.h, w := img.w,
    payload := (List.range (img.h * img.w)).flatMap fun i =>
      match img.mode with
      | .RGB => [img.sample i 0, img.sample i 1, img.sample i 2]
      | .L => [img.sample i 0, img.sample i 0, img.sample i 0]
      | .P => [img.sample i 0, img.sample i 0, img.sample i 0]
      | .RGBA => [img.sample i 0, img.sample i 1, img.sample i 2] }

/-- Models np.array(image) on an RGB-mode PIL image: the (h, w, 3) raster. -/
def RawImage.toArray (img : RawImage) : Img :=
  Img.ofFn img.h img.w fun y x =>
    (img.sample (y * img.w + x) 0,
     img.sample (y * img.w + x) 1,
     img.sample (y * img.w + x) 2)

/-- Shallow embedding of read_image_file (src/backend/app.py, lines 93-121):
PIL decode, normalize to RGB when the mode differs, numpy conversion, then
RGB → BGR for OpenCV.  Any decode failure is caught and re-raised as the
HTTPException with status 400 whose detail interpolates the library error
text; the model uses PIL's standard unparseable-image message. -/
def read_image_file (file_bytes : List Nat) : Except String Img :=
  match pilOpen file_bytes with
  | none => .error "Invalid image file: cannot identify image file"
  | some image0 =>
    let image := if image0.mode ≠ PILMode.RGB then image0.convertRGB else image0
    let img_array := image.toArray
    let img_bgr := cvtColorRGB2BGR img_array
    .ok img_bgr

/-- The eight PNG signature bytes. -/
def pngSig : List Nat := [137, 80, 78, 71, 13, 10, 26, 10]

/-- Models cv2.imencode(.png, img): cv2 raises on an empty raster (so the
model returns none there, the encoder's failure mode), and otherwise
serializes the PNG signature, the dimensions and the h · w · 3 pixel
samples. -/
def imencodePNG (img : Img) : Option (List Nat) :=
  if img.height = 0 ∨ img.width = 0 then none
  else some (pngSig ++ img.height :: img.width ::
    ((List.range (img.height * img.width)).flatMap fun i =>
      [(img.px (i / img.width) (i % img.width)).1,
       (img.px (i / img.width) (i % img.width)).2.1,
       (img.px (i / img.width) (i % img.width)).2.2]))

/-- Model PNG decoder, the inverse reading of imencodePNG's serialization:
used to state that returned bytes are valid PNG decodable back to a raster.
Accepts exactly a PNG signature followed by nonzero dimensions and a
matching h · w · 3 sample stream. -/
def imdecodePNG (bytes : List Nat) : Option Img :=
  match bytes with
  | s1 :: s2 :: s3 :: s4 :: s5 :: s6 :: s7 :: s8 :: h :: w :: payload =>
    if [s1, s2, s3, s4, s5, s6, s7, s8] = pngSig ∧
        h ≠ 0 ∧ w ≠ 0 ∧ payload.length = h * w * 3 then
      some (Img.ofFn h w fun y x =>
        (payload.getD (3 * (y * w + x)) 0,
         payload.getD (3 * (y * w + x) + 1) 0,
         payload.getD (3 * (y * w + x) + 2) 0))
    else none
  | _ => none

/-- Shallow embedding of encode_image (src/backend/app.py, lines 124-143):
raises (here: returns an error, never bytes) when cv2.imencode reports
failure. -/
def encode_image (img : Img) : Except String (List Nat) :=
  match imencodePNG img with
  | none => .error "Failed to encode image"
  | some buffer => .ok buffer

/-- The multipart upload as FastAPI hands it to the handler: optional
original filename, optional declared media type (None when the part carries
no Content-Type header), and the file bytes that image.read() returns. -/
structure UploadFile where
  filename : Option String
  content_type : Option String
  contents : List Nat
deriving DecidableEq

/-- Outcome of one POST /process request.  ok carries the response body and
the media type plus the two response headers (Content-Disposition and
X-Processing-Phase); httpError is a raised HTTPException with its status
and detail; pythonError is an exception escaping the handler uncaught
(the framework then fails the request, not with a handler-issued 400). -/
inductive Resp where
  | ok (content : List Nat) (media_type : String)
       (content_disposition : String) (x_processing_phase : String)
  | httpError (status : Nat) (detail : String)
  | pythonError (msg : String)
deriving DecidableEq

/-- Python str() of an optional string, as an f-string renders it. -/
def pyStr : Option String → String
  | none => "None"
  | some s => s

/-- Models Python str.startswith: the candidate head runs character by
character along the start of the string. -/
def pyStartsWith (s pre : String) : Bool := pre.data.isPrefixOf s.data

/-- Shallow embedding of the POST /process handler process_image
(src/backend/app.py, lines 159-226).  Control flow mirrors the source:
phase validation first; then the content-type check, which dereferences
image.content_type OUTSIDE the try block, so a missing media type raises
AttributeError out of the handler (pythonError) instead of an
HTTPException; then the try block — decode (an HTTPException from
read_image_file is re-raised unchanged), dispatch on phase (arterial to
increase_contrast, anything else, necessarily venous, to
apply_gaussian_blur), encode (a failure there is caught by the generic
except and becomes a 500), and the Response with the PNG media type and
the two headers. -/
def process_image (image : UploadFile) (phase : String) : Resp :=
  if ¬ (phase = "arterial" ∨ phase = "venous") then
    .httpError 400 "Invalid phase. Must be arterial or venous"
  else
    match image.content_type with
    | none => .pythonError "AttributeError: NoneType object has no attribute startswith"
    | some ct =>
      if ¬ (pyStartsWith ct "image/" = true) then
        .httpError 400 "File must be an image (JPG/PNG)"
      else
        match read_image_file image.contents with
        | .error detail => .httpError 400 detail
        | .ok img =>
          let processed_img :=
            if phase = "arterial" then increase_contrast img
            else apply_gaussian_blur img
          match encode_image processed_img with
          | .error e => .httpError 500 ("Error processing image: " ++ e)
          | .ok output_bytes =>
            .ok output_bytes "image/png"
               ("inline; filename=processed_" ++ pyStr image.filename) phase

/-- A well-formed 1 × 1 RGB upload in the model PNG container, with an image
media type: a minimal request that exercises the whole pipeline. -/
def sampleUpload : UploadFile := ⟨some "scan.png", some "image/png", [137, 0, 1, 1, 10, 20, 30]⟩

/-- The same bytes under a different filename and declared media type. -/
def sampleUpload2 : UploadFile := ⟨some "other.jpg", some "image/jpeg", [137, 0, 1, 1, 10, 20, 30]⟩

/-- The BGR raster sampleUpload decodes to. -/
def sampleImg : Img := ⟨[[(30, 20, 10)]]⟩

/-- An upload whose declared media type is not an image type. -/
def textUpload : UploadFile := ⟨some "notes.txt", some "text/plain", [1, 2, 3]⟩

/-- An upload with an image media type but unparseable bytes. -/
def corruptUpload : UploadFile := ⟨some "broken.png", some "image/png", [1, 2]⟩

/-- An upload decoding to an empty (0 × 0) raster, on which the encoder
fails. -/
def emptyUpload : UploadFile := ⟨some "empty.png", some "image/png", [137, 0, 0, 0]⟩

/-- An upload whose multipart part declares no media type at all. -/
def noTypeUpload : UploadFile := ⟨some "scan.png", none, [137, 0, 1, 1, 10, 20, 30]⟩

/-! Decidability of result comparison, used to evaluate the pipeline on
concrete requests. -/

instance {ε α : Type} [DecidableEq ε] [DecidableEq α] : DecidableEq (Except ε α) :=
  fun a b =>
    match a, b with
    | .ok x, .ok y =>
      if h : x = y then .isTrue (congrArg Except.ok h)
      else .isFalse (fun hh => h (Except.ok.inj hh))
    | .error x, .error y =>
      if h : x = y then .isTrue (congrArg Except.error h)
      else .isFalse (fun hh => h (Except.error.inj hh))
    | .ok _, .error _ => .isFalse (fun hh => Except.noConfusion hh)
    | .error _, .ok _ => .isFalse (fun hh => Except.noConfusion hh)

/-! Shape lemmas: how each pipeline stage transforms the raster geometry. -/

theorem Img.height_ofFn (h w : Nat) (f : Nat → Nat → Pix) : (Img.ofFn h w f).height = h := by
  simp [Img.ofFn, Img.height]

theorem Img.width_ofFn (h w : Nat) (f : Nat → Nat → Pix) :
    (Img.ofFn h w f).width = if h = 0 then 0 else w := by
  cases h with
  | zero => simp [Img.ofFn, Img.width]
  | succ n => simp [Img.ofFn, Img.width, List.range_succ_eq_map]

theorem Img.height_map (f : Pix → Pix) (img : Img) : (Img.map f img).height = img.height := by
  simp [Img.map, Img.height]

theorem Img.width_map (f : Pix → Pix) (img : Img) : (Img.map f img).width = img.width := by
  cases hr : img.rows with
  | nil => simp [Img.map, Img.width, hr]
  | cons r t => simp [Img.map, Img.width, hr]

theorem Img.width_eq_zero_of_height (img : Img) (h : img.height = 0) : img.width = 0 := by
  cases hr : img.rows with
  | nil => simp [Img.width, hr]
  | cons r t => rw [Img.height, hr] at h; cases h

theorem Mat.length_ofFn (h w : Nat) (f : Nat → Nat → Nat) : (Mat.ofFn h w f).length = h := by
  simp [Mat.ofFn]

theorem Mat.headlen_ofFn (h w : Nat) (f : Nat → Nat → Nat) :
    ((Mat.ofFn h w f).headD []).length = if h = 0 then 0 else w := by
  cases h with
  | zero => simp [Mat.ofFn]
  | succ n => simp [Mat.ofFn, List.range_succ_eq_map]

theorem splitCh1_length (img : Img) : (splitCh1 img).length = img.height := by
  simp [splitCh1, Img.height]

theorem splitCh1_headlen (img : Img) : ((splitCh1 img).headD []).length = img.width := by
  cases hr : img.rows with
  | nil => simp [splitCh1, Img.width, hr]
  | cons r t => simp [splitCh1, Img.width, hr]

theorem claheApply_length (m : Mat) : (claheApply m).length = m.length := by
  simp only [claheApply]
  exact Mat.length_ofFn _ _ _

theorem claheApply_headlen (m : Mat) :
    ((claheApply m).headD []).length = if m.length = 0 then 0 else (m.headD []).length := by
  simp only [claheApply]
  exact Mat.headlen_ofFn _ _ _

theorem mergeCh_height (m1 m2 m3 : Mat) : (mergeCh m1 m2 m3).height = m1.length := by
  simp only [mergeCh]
  exact Img.height_ofFn _ _ _

theorem mergeCh_width (m1 m2 m3 : Mat) :
    (mergeCh m1 m2 m3).width = if m1.length = 0 then 0 else (m1.headD []).length := by
  simp only [mergeCh]
  exact Img.width_ofFn _ _ _

theorem increase_contrast_height (img : Img) : (increase_contrast img).height = img.height := by
  simp only [increase_contrast, cvtColorLAB2BGR, cvtColorBGR2LAB]
  rw [Img.height_map, mergeCh_height, claheApply_length, splitCh1_length, Img.height_map]

theorem increase_contrast_width (img : Img) : (increase_contrast img).width = img.width := by
  simp only [increase_contrast, cvtColorLAB2BGR, cvtColorBGR2LAB]
  rw [Img.width_map, mergeCh_width, claheApply_length, claheApply_headlen,
      splitCh1_length, splitCh1_headlen, Img.height_map, Img.width_map]
  by_cases h : img.height = 0
  · simp [h, Img.width_eq_zero_of_height img h]
  · simp [h]

theorem apply_gaussian_blur_height (img : Img) :
    (apply_gaussian_blur img).height = img.height := by
  simp only [apply_gaussian_blur]
  exact Img.height_ofFn _ _ _

theorem apply_gaussian_blur_width (img : Img) :
    (apply_gaussian_blur img).width = img.width := by
  simp only [apply_gaussian_blur]
  rw [Img.width_ofFn]
  by_cases h : img.height = 0
  · simp [h, Img.width_eq_zero_of_height img h]
  · simp [h]

/-! Handler path lemmas. -/

theorem process_image_invalid_phase (image : UploadFile) (phase : String)
    (h1 : phase ≠ "arterial") (h2 : phase ≠ "venous") :
    process_image image phase = .httpError 400 "Invalid phase. Must be arterial or venous" := by
  simp [process_image, h1, h2]

theorem process_image_valid (image : UploadFile) (phase ct : String) (img : Img)
    (hp : phase = "arterial" ∨ phase = "venous")
    (hct : image.content_type = some ct)
    (hs : pyStartsWith ct "image/" = true)
    (hdec : read_image_file image.contents = .ok img) :
    process_image image phase =
      match encode_image (if phase = "arterial" then increase_contrast img
                          else apply_gaussian_blur img) with
      | .error e => .httpError 500 ("Error processing image: " ++ e)
      | .ok output_bytes =>
          Resp.ok output_bytes "image/png"
             ("inline; filename=processed_" ++ pyStr image.filename) phase := by
  rcases hp with h | h <;> subst h <;> simp [process_image, hct, hs, hdec]

theorem process_image_ok_inv (image : UploadFile) (phase : String)
    (c : List Nat) (m d x : String)
    (h : process_image image phase = .ok c m d x) :
    ∃ img, read_image_file image.contents = .ok img ∧
      encode_image (if phase = "arterial" then increase_contrast img
                    else apply_gaussian_blur img) = .ok c ∧
      m = "image/png" ∧
      d = "inline; filename=processed_" ++ pyStr image.filename ∧ x = phase := by
  simp only [process_image] at h
  split at h
  · cases h
  · split at h
    · cases h
    · split at h
      · cases h
      · split at h
        · cases h
        · split at h
          · cases h
          · injection h with e1 e2 e3 e4
            subst e1
            exact ⟨_, by assumption, by assumption, e2.symm, e3.symm, e4.symm⟩

/-! Encoder and model-PNG roundtrip. -/

theorem length_flatMap_triple (n : Nat) (f : Nat → List Nat)
    (hf : ∀ i, (f i).length = 3) : ((List.range n).flatMap f).length = n * 3 := by
  induction n with
  | zero => simp
  | succ k ih =>
    rw [List.range_succ, List.flatMap_append]
    simp only [List.length_append, ih, List.flatMap_cons, List.flatMap_nil,
      List.append_nil, hf, Nat.succ_mul]

theorem imencodePNG_ok (img : Img) (hh : img.height ≠ 0) (hw : img.width ≠ 0) :
    imencodePNG img = some (pngSig ++ img.height :: img.width ::
      ((List.range (img.height * img.width)).flatMap fun i =>
        [(img.px (i / img.width) (i % img.width)).1,
         (img.px (i / img.width) (i % img.width)).2.1,
         (img.px (i / img.width) (i % img.width)).2.2])) := by
  rw [imencodePNG, if_neg]
  intro hor
  rcases hor with h | h
  · exact hh h
  · exact hw h

theorem imdecodePNG_header (h w : Nat) (payload : List Nat)
    (hh : h ≠ 0) (hw : w ≠ 0) (hlen : payload.length = h * w * 3) :
    ∃ img2, imdecodePNG (pngSig ++ h :: w :: payload) = some img2 ∧
      img2.height = h ∧ img2.width = w := by
  refine ⟨Img.ofFn h w fun y x =>
      (payload.getD (3 * (y * w + x)) 0,
       payload.getD (3 * (y * w + x) + 1) 0,
       payload.getD (3 * (y * w + x) + 2) 0), ?_, Img.height_ofFn _ _ _, ?_⟩
  · show imdecodePNG
        (137 :: 80 :: 78 :: 71 :: 13 :: 10 :: 26 :: 10 :: h :: w :: payload) = _
    rw [imdecodePNG]
    rw [if_pos]
    exact ⟨rfl, hh, hw, hlen⟩
  · rw [Img.width_ofFn, if_neg hh]

theorem imdecodePNG_of_imencodePNG (img : Img) (hh : img.height ≠ 0) (hw : img.width ≠ 0) :
    ∃ out img2, imencodePNG img = some out ∧ imdecodePNG out = some img2 ∧
      img2.height = img.height ∧ img2.width = img.width := by
  have hlen : ((List.range (img.height * img.width)).flatMap fun i =>
      [(img.px (i / img.width) (i % img.width)).1,
       (img.px (i / img.width) (i % img.width)).2.1,
       (img.px (i / img.width) (i % img.width)).2.2]).length
      = img.height * img.width * 3 := length_flatMap_triple _ _ (fun i => rfl)
  obtain ⟨img2, hdec, hth, htw⟩ := imdecodePNG_header img.height img.width _ hh hw hlen
  exact ⟨_, img2, imencodePNG_ok img hh hw, hdec, hth, htw⟩

/-! The claims. -/

/-- Claim C1: for every request carrying a valid phase, an image media type
and bytes that decode to a nonempty raster, process_image returns PNG bytes
that decode back into a raster of the same height and width as the decoded
input, and neither filter alters the image dimensions (the buffer type
fixes the channel count at 3 throughout). -/
theorem C1_process_preserves_dimensions (image : UploadFile) (phase ct : String) (img : Img)
    (hp : phase = "arterial" ∨ phase = "venous")
    (hct : image.content_type = some ct)
    (hs : pyStartsWith ct "image/" = true)
    (hdec : read_image_file image.contents = .ok img)
    (hh : 0 < img.height) (hw : 0 < img.width) :
    ((increase_contrast img).height = img.height ∧
     (increase_contrast img).width = img.width ∧
     (apply_gaussian_blur img).height = img.height ∧
     (apply_gaussian_blur img).width = img.width) ∧
    ∃ out img2,
      process_image image phase =
        Resp.ok out "image/png" ("inline; filename=processed_" ++ pyStr image.filename) phase ∧
      imdecodePNG out = some img2 ∧ img2.height = img.height ∧ img2.width = img.width := by
  have hph : (if phase = "arterial" then increase_contrast img
              else apply_gaussian_blur img).height = img.height := by
    by_cases h : phase = "arterial" <;>
      simp [h, increase_contrast_height, apply_gaussian_blur_height]
  have hpw : (if phase = "arterial" then increase_contrast img
              else apply_gaussian_blur img).width = img.width := by
    by_cases h : phase = "arterial" <;>
      simp [h, increase_contrast_width, apply_gaussian_blur_width]
  obtain ⟨out, img2, henc, hdec2, h2h, h2w⟩ :=
    imdecodePNG_of_imencodePNG
      (if phase = "arterial" then increase_contrast img else apply_gaussian_blur img)
      (by rw [hph]; omega) (by rw [hpw]; omega)
  have hEnc : encode_image (if phase = "arterial" then increase_contrast img
              else apply_gaussian_blur img) = .ok out := by
    rw [encode_image, henc]
  refine ⟨⟨increase_contrast_height img, increase_contrast_width img,
           apply_gaussian_blur_height img, apply_gaussian_blur_width img⟩,
          out, img2, ?_, hdec2, by rw [h2h, hph], by rw [h2w, hpw]⟩
  rw [process_image_valid image phase ct img hp hct hs hdec, hEnc]

/-- Concrete run of C1: the 1 × 1 sample upload through the arterial phase. -/
theorem C1_witness :
    ((increase_contrast sampleImg).height = sampleImg.height ∧
     (increase_contrast sampleImg).width = sampleImg.width ∧
     (apply_gaussian_blur sampleImg).height = sampleImg.height ∧
     (apply_gaussian_blur sampleImg).width = sampleImg.width) ∧
    ∃ out img2,
      process_image sampleUpload "arterial" =
        Resp.ok out "image/png"
          ("inline; filename=processed_" ++ pyStr sampleUpload.filename) "arterial" ∧
      imdecodePNG out = some img2 ∧
      img2.height = sampleImg.height ∧ img2.width = sampleImg.width :=
  C1_process_preserves_dimensions sampleUpload "arterial" "image/png" sampleImg
    (Or.inl rfl) rfl (by decide) (by decide) (by decide) (by decide)

/-- Claim C2: process_image is deterministic in (image bytes, phase): any two
successful calls with identical file bytes and identical phase return
byte-identical output bodies, whatever the other request fields are. -/
theorem C2_process_deterministic (i1 i2 : UploadFile) (phase : String)
    (c1 c2 : List Nat) (m1 m2 d1 d2 x1 x2 : String)
    (hb : i1.contents = i2.contents)
    (h1 : process_image i1 phase = .ok c1 m1 d1 x1)
    (h2 : process_image i2 phase = .ok c2 m2 d2 x2) :
    c1 = c2 := by
  obtain ⟨g1, hd1, he1, _⟩ := process_image_ok_inv i1 phase c1 m1 d1 x1 h1
  obtain ⟨g2, hd2, he2, _⟩ := process_image_ok_inv i2 phase c2 m2 d2 x2 h2
  rw [hb] at hd1
  rw [hd1] at hd2
  injection hd2 with hg
  subst hg
  rw [he1] at he2
  exact Except.ok.inj he2

/-- Concrete run of C2: the same bytes under two different filenames and
declared media types give the same output body. -/
theorem C2_witness :
    ([137, 80, 78, 71, 13, 10, 26, 10, 1, 1, 30, 20, 10] : List Nat) =
      [137, 80, 78, 71, 13, 10, 26, 10, 1, 1, 30, 20, 10] :=
  C2_process_deterministic sampleUpload sampleUpload2 "venous"
    [137, 80, 78, 71, 13, 10, 26, 10, 1, 1, 30, 20, 10]
    [137, 80, 78, 71, 13, 10, 26, 10, 1, 1, 30, 20, 10]
    "image/png" "image/png"
    "inline; filename=processed_scan.png" "inline; filename=processed_other.jpg"
    "venous" "venous" rfl (by decide) (by decide)

/-- Claim C3: phase dispatch is exhaustive and exclusive — for a request that
reaches the filtering step, arterial yields the contrast-enhanced encoding,
venous yields the blurred encoding, and any other phase never reaches a
filter (the handler rejects it, so there is no third filter path). -/
theorem C3_phase_dispatch (image : UploadFile) (ct : String) (img : Img)
    (hct : image.content_type = some ct)
    (hs : pyStartsWith ct "image/" = true)
    (hdec : read_image_file image.contents = .ok img) :
    (∀ out, encode_image (increase_contrast img) = .ok out →
        process_image image "arterial" =
          Resp.ok out "image/png"
            ("inline; filename=processed_" ++ pyStr image.filename) "arterial") ∧
    (∀ out, encode_image (apply_gaussian_blur img) = .ok out →
        process_image image "venous" =
          Resp.ok out "image/png"
            ("inline; filename=processed_" ++ pyStr image.filename) "venous") ∧
    (∀ phase, phase ≠ "arterial" → phase ≠ "venous" →
        process_image image phase =
          .httpError 400 "Invalid phase. Must be arterial or venous") := by
  refine ⟨fun out ho => ?_, fun out ho => ?_, fun phase h1 h2 =>
    process_image_invalid_phase image phase h1 h2⟩
  · rw [process_image_valid image "arterial" ct img (Or.inl rfl) hct hs hdec]
    simp [ho]
  · rw [process_image_valid image "venous" ct img (Or.inr rfl) hct hs hdec]
    simp [ho]

set_option maxRecDepth 8192 in
/-- Concrete run of C3: both filter paths and the rejection of a third phase
on the sample upload. -/
theorem C3_witness :
    process_image sampleUpload "arterial" =
      Resp.ok [137, 80, 78, 71, 13, 10, 26, 10, 1, 1, 255, 255, 250] "image/png"
        "inline; filename=processed_scan.png" "arterial" ∧
    process_image sampleUpload "venous" =
      Resp.ok [137, 80, 78, 71, 13, 10, 26, 10, 1, 1, 30, 20, 10] "image/png"
        "inline; filename=processed_scan.png" "venous" ∧
    process_image sampleUpload "capillary" =
      Resp.httpError 400 "Invalid phase. Must be arterial or venous" := by
  obtain ⟨ha, hv, ho⟩ :=
    C3_phase_dispatch sampleUpload "image/png" sampleImg rfl (by decide) (by decide)
  exact ⟨ha _ (by decide), hv _ (by decide), ho "capillary" (by decide) (by decide)⟩

/-- Claim C4: a phase outside the two enumerated values is rejected with the
400 validation error, and the upload plays no part in the outcome — the
very same error is produced whatever upload is attached, so its bytes are
never decoded, filtered or encoded. -/
theorem C4_invalid_phase_short_circuit (image : UploadFile) (phase : String)
    (h1 : phase ≠ "arterial") (h2 : phase ≠ "venous") :
    process_image image phase =
      .httpError 400 "Invalid phase. Must be arterial or venous" ∧
    ∀ other : UploadFile, process_image other phase = process_image image phase := by
  refine ⟨process_image_invalid_phase image phase h1 h2, fun other => ?_⟩
  rw [process_image_invalid_phase image phase h1 h2,
      process_image_invalid_phase other phase h1 h2]

/-- Concrete run of C4: the phase capillary is rejected. -/
theorem C4_witness :
    process_image sampleUpload "capillary" =
      Resp.httpError 400 "Invalid phase. Must be arterial or venous" :=
  (C4_invalid_phase_short_circuit sampleUpload "capillary" (by decide) (by decide)).1

/-- Claim C5: an upload declaring a media type that does not start with
image/ is answered with a 400 validation error whose detail does not depend
on the uploaded bytes — no byte-level decode is attempted. -/
theorem C5_nonimage_content_type (image : UploadFile) (phase ct : String)
    (hct : image.content_type = some ct)
    (hs : pyStartsWith ct "image/" = false) :
    ∃ d, process_image image phase = .httpError 400 d ∧
      ∀ b : List Nat,
        process_image ⟨image.filename, image.content_type, b⟩ phase =
          .httpError 400 d := by
  by_cases hp : phase = "arterial" ∨ phase = "venous"
  · refine ⟨"File must be an image (JPG/PNG)", ?_, fun b => ?_⟩
    · rcases hp with h | h <;> subst h <;> simp [process_image, hct, hs]
    · rcases hp with h | h <;> subst h <;> simp [process_image, hct, hs]
  · refine ⟨"Invalid phase. Must be arterial or venous", ?_, fun b => ?_⟩
    · exact process_image_invalid_phase image phase
        (fun h => hp (Or.inl h)) (fun h => hp (Or.inr h))
    · exact process_image_invalid_phase _ phase
        (fun h => hp (Or.inl h)) (fun h => hp (Or.inr h))

/-- Concrete run of C5: a text/plain upload is rejected with a 400. -/
theorem C5_witness :
    ∃ d, process_image textUpload "arterial" = Resp.httpError 400 d :=
  (C5_nonimage_content_type textUpload "arterial" "text/plain" rfl
    (by decide)).elim fun d hd => ⟨d, hd.1⟩

/-- Claim C6: when the declared media type is an image type but the bytes are
not a parseable raster image, the decode failure becomes the 400 response
with the decode-error detail, and no PNG output of any kind is returned. -/
theorem C6_decode_error_is_400 (image : UploadFile) (phase ct : String)
    (hp : phase = "arterial" ∨ phase = "venous")
    (hct : image.content_type = some ct)
    (hs : pyStartsWith ct "image/" = true)
    (hbad : pilOpen image.contents = none) :
    process_image image phase =
      .httpError 400 "Invalid image file: cannot identify image file" ∧
    ∀ c m d x, process_image image phase ≠ Resp.ok c m d x := by
  have hread : read_image_file image.contents =
      .error "Invalid image file: cannot identify image file" := by
    simp only [read_image_file, hbad]
  have h1 : process_image image phase =
      .httpError 400 "Invalid image file: cannot identify image file" := by
    rcases hp with h | h <;> subst h <;> simp [process_image, hct, hs, hread]
  exact ⟨h1, fun c m d x hok => by rw [h1] at hok; cases hok⟩

/-- Concrete run of C6: two garbage bytes under an image media type. -/
theorem C6_witness :
    process_image corruptUpload "venous" =
      Resp.httpError 400 "Invalid image file: cannot identify image file" :=
  (C6_decode_error_is_400 corruptUpload "venous" "image/png"
    (Or.inr rfl) rfl (by decide) (by decide)).1

/-- Claim C7: when PNG encoding cannot complete, the encoder yields an error
rather than any bytes, and process_image turns that failure into the 500
response; no partial output reaches the client. -/
theorem C7_encode_failure_is_500 (image : UploadFile) (phase ct e : String) (img : Img)
    (hp : phase = "arterial" ∨ phase = "venous")
    (hct : image.content_type = some ct)
    (hs : pyStartsWith ct "image/" = true)
    (hdec : read_image_file image.contents = .ok img)
    (henc : encode_image (if phase = "arterial" then increase_contrast img
                          else apply_gaussian_blur img) = .error e) :
    (∀ b, encode_image (if phase = "arterial" then increase_contrast img
                        else apply_gaussian_blur img) ≠ .ok b) ∧
    process_image image phase = .httpError 500 ("Error processing image: " ++ e) ∧
    ∀ c m d x, process_image image phase ≠ Resp.ok c m d x := by
  have h2 : process_image image phase =
      .httpError 500 ("Error processing image: " ++ e) := by
    rw [process_image_valid image phase ct img hp hct hs hdec, henc]
  refine ⟨fun b hb => ?_, h2, fun c m d x hok => ?_⟩
  · rw [henc] at hb
    exact Except.noConfusion hb
  · rw [h2] at hok
    exact Resp.noConfusion hok

/-- Concrete run of C7: a 0 × 0 upload decodes but cannot be encoded, and the
request ends in the 500 with the encoder's message. -/
theorem C7_witness :
    process_image emptyUpload "venous" =
      Resp.httpError 500 "Error processing image: Failed to encode image" :=
  (C7_encode_failure_is_500 emptyUpload "venous" "image/png"
    "Failed to encode image" ⟨[]⟩
    (Or.inr rfl) rfl (by decide) (by decide) (by decide)).2.1

/-- Claim C8: every upload that PIL can parse is returned by read_image_file
as the 3-channel BGR buffer obtained by normalizing the source to RGB first
(the branch result is always an RGB-mode image, whatever the source mode),
and at least the PNG-signature and JPEG-signature containers are accepted
by the decoder. -/
theorem C8_decoder_normalizes_to_rgb (bytes : List Nat) (raw : RawImage)
    (h : pilOpen bytes = some raw) :
    read_image_file bytes =
      .ok (cvtColorRGB2BGR (RawImage.toArray
        (if raw.mode ≠ PILMode.RGB then raw.convertRGB else raw))) ∧
    (if raw.mode ≠ PILMode.RGB then raw.convertRGB else raw).mode = PILMode.RGB ∧
    (∃ r1, pilOpen [137, 1, 2, 2, 1, 2, 3, 4] = some r1) ∧
    (∃ r2, pilOpen [255, 3, 1, 1, 1, 2, 3, 4] = some r2) := by
  refine ⟨?_, ?_, ⟨⟨PILMode.L, 2, 2, [1, 2, 3, 4]⟩, by decide⟩,
    ⟨⟨PILMode.RGBA, 1, 1, [1, 2, 3, 4]⟩, by decide⟩⟩
  · simp only [read_image_file, h]
  · by_cases hm : raw.mode = PILMode.RGB
    · simp [hm]
    · simp [hm, RawImage.convertRGB]

/-- Concrete run of C8: a 1 × 1 grayscale (mode L) upload is normalized. -/
theorem C8_witness :
    read_image_file [137, 1, 1, 1, 5] =
      .ok (cvtColorRGB2BGR (RawImage.toArray
        (if (⟨PILMode.L, 1, 1, [5]⟩ : RawImage).mode ≠ PILMode.RGB
         then RawImage.convertRGB ⟨PILMode.L, 1, 1, [5]⟩
         else ⟨PILMode.L, 1, 1, [5]⟩))) :=
  (C8_decoder_normalizes_to_rgb [137, 1, 1, 1, 5] ⟨PILMode.L, 1, 1, [5]⟩ (by decide)).1

/-- Claim C9: every successful response carries the PNG media type and
exactly the two descriptive metadata fields the Resp.ok shape provides: the
Content-Disposition filename derived from the original upload filename, and
the X-Processing-Phase header equal to the phase that was applied. -/
theorem C9_response_metadata (image : UploadFile) (phase : String)
    (c : List Nat) (m d x : String)
    (h : process_image image phase = .ok c m d x) :
    m = "image/png" ∧
    d = "inline; filename=processed_" ++ pyStr image.filename ∧
    x = phase := by
  obtain ⟨img, _, _, hm, hd, hx⟩ := process_image_ok_inv image phase c m d x h
  exact ⟨hm, hd, hx⟩

set_option maxRecDepth 8192 in
/-- Concrete run of C9: the metadata of the sample venous response. -/
theorem C9_witness :
    ("image/png" : String) = "image/png" ∧
    ("inline; filename=processed_scan.png" : String) =
      "inline; filename=processed_" ++ pyStr sampleUpload.filename ∧
    ("venous" : String) = "venous" :=
  C9_response_metadata sampleUpload "venous"
    [137, 80, 78, 71, 13, 10, 26, 10, 1, 1, 30, 20, 10]
    "image/png" "inline; filename=processed_scan.png" "venous" (by decide)

/-- Claim C10: a request with a valid phase whose upload part declares no
media type makes the handler dereference image.content_type unguarded,
outside the try block: the request faults with the escaping AttributeError
and in particular never receives a 400 validation response. -/
theorem C10_missing_content_type_faults (image : UploadFile) (phase : String)
    (hp : phase = "arterial" ∨ phase = "venous")
    (hn : image.content_type = none) :
    process_image image phase =
      .pythonError "AttributeError: NoneType object has no attribute startswith" ∧
    ∀ detail, process_image image phase ≠ Resp.httpError 400 detail := by
  have h1 : process_image image phase =
      .pythonError "AttributeError: NoneType object has no attribute startswith" := by
    rcases hp with h | h <;> subst h <;> simp [process_image, hn]
  exact ⟨h1, fun detail hx => by rw [h1] at hx; cases hx⟩

/-- Concrete run of C10: the sample bytes with no declared media type. -/
theorem C10_witness :
    process_image noTypeUpload "arterial" =
      Resp.pythonError "AttributeError: NoneType object has no attribute startswith" :=
  (C10_missing_content_type_faults noTypeUpload "arterial" (Or.inl rfl) rfl).1
